import Mathlib

/-!
Verification of the CodeRabbit YAML configuration validator
(`scripts/validate-coderabbit.py`).

The script loads a YAML file, checks the parsed document against the
expected schema (a `reviews` mapping with an optional
`labeling_instructions` list of `{label, instructions}` records), and
reports an ordered list of human-readable error messages; the CLI wrapper
prints them and exits 0 or 1.

The embedding below models the parsed YAML document as an untyped tree,
the dynamic Python membership test (`k in v`) and subscript (`v[k]`)
including the `TypeError` they raise on unsupported operands, and the
validator and `main` as total functions returning `Except PyError`.
-/

set_option autoImplicit false

namespace CodeRabbit

/-- A parsed YAML value: the untyped tree `yaml.safe_load` produces.
Mapping keys are strings (the only keys the script ever probes). -/
inductive Yaml where
  | str (s : String)
  | int (n : Int)
  | bool (b : Bool)
  | null
  | seq (items : List Yaml)
  | map (entries : List (String × Yaml))

/-- The unhandled Python exceptions the script can die with. -/
inductive PyError where
  | typeError
  | keyError
deriving DecidableEq, Repr

/-- First-match association-list lookup, modelling `d[k]` / `k in d` on a
Python dict with string keys. -/
def lookupKey : List (String × Yaml) → String → Option Yaml
  | [], _ => none
  | (k, v) :: rest, key => if k = key then some v else lookupKey rest key

/-- Whether `needle` is an initial segment of `hay` (on character lists). -/
def startsWithList : List Char → List Char → Bool
  | _, [] => true
  | [], _ :: _ => false
  | c :: cs, d :: ds => c == d && startsWithList cs ds

/-- Whether `needle` occurs as a contiguous substring of the character
list, as Python's `needle in hay` does for strings. -/
def containsSub (needle : List Char) : List Char → Bool
  | [] => needle.isEmpty
  | c :: rest => startsWithList (c :: rest) needle || containsSub needle rest

/-- Python's `x == k` for a string `k` against a YAML value: true only
for the equal string. -/
def eqStrKey (k : String) : Yaml → Bool
  | .str s => s == k
  | _ => false

/-- Python's `k in v` for a string key `k`: key membership on dicts,
element membership on lists, substring test on strings, and a
`TypeError` on values that are not iterable (None, numbers, booleans). -/
def pyContains (k : String) : Yaml → Except PyError Bool
  | .map m => .ok (lookupKey m k).isSome
  | .seq l => .ok (l.any (eqStrKey k))
  | .str s => .ok (containsSub k.data s.data)
  | _ => .error .typeError

/-- Python's `v[k]` for a string key `k`: dict lookup (`KeyError` when the
key is absent), `TypeError` on every other value. -/
def pySubscript : Yaml → String → Except PyError Yaml
  | .map m, k =>
    match lookupKey m k with
    | some v => .ok v
    | none => .error .keyError
  | _, _ => .error .typeError

/-- `type(v).__name__` for the modelled YAML values. -/
def typeName : Yaml → String
  | .str _ => "str"
  | .int _ => "int"
  | .bool _ => "bool"
  | .null => "NoneType"
  | .seq _ => "list"
  | .map _ => "dict"

/-- Values on which Python's `in` raises `TypeError` (not iterable and not
a container): None, numbers, booleans. -/
def noMembership : Yaml → Bool
  | .int _ => true
  | .bool _ => true
  | .null => true
  | _ => false

/-- Values on which Python's string-key membership test succeeds but the
ensuing subscript `v[k]` raises `TypeError`: strings containing `k` as a
substring, and lists containing the string `k` as an element. -/
def subscriptCrashes (k : String) : Yaml → Bool
  | .str s => containsSub k.data s.data
  | .seq l => l.any (eqStrKey k)
  | _ => false

/-- Whether probing key `k` on `v` — `k in v` followed, when the test
succeeds, by `v[k]` — raises an unhandled `TypeError`: either `v` is not
iterable, or the membership test succeeds on a non-mapping value and the
subscript raises. -/
def probeCrashes (k : String) (v : Yaml) : Bool :=
  noMembership v || subscriptCrashes k v

/-- True exactly on sequence values. -/
def isSeq : Yaml → Bool
  | .seq _ => true
  | _ => false

/-- True exactly on mapping values. -/
def isMap : Yaml → Bool
  | .map _ => true
  | _ => false

/-- The quoted path fragment `"reviews.labeling_instructions[i]"` the
script embeds in its per-element messages. -/
def elemPath (i : Nat) : String :=
  "\"reviews.labeling_instructions[" ++ toString i ++ "]\""

/-- The `label` field checks of one list element (source lines 45-52):
missing-field message if the key is absent, else the type message if its
value is not a string; at most one of the two fires. -/
def labelFieldErrors (i : Nat) (o : Option Yaml) : List String :=
  match o with
  | none => ["Missing 'label' field at " ++ elemPath i]
  | some (.str _) => []
  | some _ => ["'label' must be a string at " ++ elemPath i]

/-- The `instructions` field checks of one list element (source lines
54-65): missing-field, else wrong-type, else the 3000-character limit;
the three branches are mutually exclusive. -/
def instructionsFieldErrors (i : Nat) (o : Option Yaml) : List String :=
  match o with
  | none => ["Missing 'instructions' field at " ++ elemPath i]
  | some (.str s) =>
    if s.length > 3000 then
      ["'instructions' exceeds 3000 character limit at " ++ elemPath i]
    else []
  | some _ => ["'instructions' must be a string at " ++ elemPath i]

/-- Classification of one `labeling_instructions` element (source lines
38-70): a string gets the specific string message, a mapping gets its two
field checks run independently (label first), anything else gets the
generic invalid-type message naming the runtime type. -/
def validateElement (i : Nat) (instruction : Yaml) : List String :=
  match instruction with
  | .str _ => ["Expected object, received string at " ++ elemPath i]
  | .map m =>
    labelFieldErrors i (lookupKey m "label") ++
      instructionsFieldErrors i (lookupKey m "instructions")
  | other =>
    ["Invalid type at " ++ elemPath i ++ ": expected object, got " ++ typeName other]

/-- The `for i, instruction in enumerate(instructions)` loop, appending
each element's errors in index order starting at `i`. -/
def validateListAux (i : Nat) : List Yaml → List String
  | [] => []
  | x :: xs => validateElement i x ++ validateListAux (i + 1) xs

/-- The schema validation of a parsed document (source lines 23-75):
return immediately with the single missing-section error when `reviews`
is absent, otherwise check `labeling_instructions` when present, either
rejecting a non-list value with one error or accumulating the
per-element errors. Python's dynamic `in`/`[]` may raise, hence the
`Except`. -/
def validateConfig (config : Yaml) : Except PyError (List String) :=
  match pyContains "reviews" config with
  | .error e => .error e
  | .ok false => .ok ["Missing 'reviews' section"]
  | .ok true =>
    match pySubscript config "reviews" with
    | .error e => .error e
    | .ok reviews =>
      match pyContains "labeling_instructions" reviews with
      | .error e => .error e
      | .ok false => .ok []
      | .ok true =>
        match pySubscript reviews "labeling_instructions" with
        | .error e => .error e
        | .ok (.seq l) => .ok (validateListAux 0 l)
        | .ok _ => .ok ["'reviews.labeling_instructions' must be a list"]

/-- Outcome of opening and parsing the file, abstracting the filesystem. -/
inductive LoadResult where
  | yamlError (msg : String)
  | fileNotFound
  | parsed (config : Yaml)

/-- `validate_coderabbit_yaml` (source lines 11-75): the two load
failures are caught and returned as single-element error lists; a parsed
document goes to the schema checks. -/
def validate_coderabbit_yaml (load : String → LoadResult) (filepath : String) :
    Except PyError (List String) :=
  match load filepath with
  | .yamlError e => .ok ["YAML syntax error: " ++ e]
  | .fileNotFound => .ok ["File not found: " ++ filepath]
  | .parsed config => validateConfig config

/-- The file path `main` selects: `sys.argv[1]` when given, else the
default `.coderabbit.yaml` (source lines 79-83). -/
def chosenPath (argv : List String) : String :=
  match argv with
  | _ :: p :: _ => p
  | _ => ".coderabbit.yaml"

/-- What one process run produces: the printed lines in order, and the
exit code. -/
structure RunResult where
  output : List String
  exitCode : Nat
deriving DecidableEq, Repr

/-- The reporting tail of `main` (source lines 88-98): the banner naming
the resolved path, then either the failure header with one bulleted line
per error and exit code 1, or the success line and exit code 0. -/
def presentResult (absPath : String) (errors : List String) : RunResult :=
  { output :=
      ("Validating CodeRabbit configuration: " ++ absPath) ::
        (match errors with
         | [] => ["✅ CodeRabbit YAML configuration is valid"]
         | _ => "\n❌ Validation failed with the following errors:" ::
             errors.map (fun e => "  - " ++ e)),
    exitCode := match errors with | [] => 0 | _ => 1 }

/-- `main` (source lines 78-98): choose the path, resolve it with the
ambient `abspath`, validate, and present. An unhandled Python exception
inside validation propagates. -/
def mainRun (abspath : String → String) (load : String → LoadResult)
    (argv : List String) : Except PyError RunResult :=
  let fp := abspath (chosenPath argv)
  match validate_coderabbit_yaml load fp with
  | .error e => .error e
  | .ok errors => .ok (presentResult fp errors)

/-- Whether validation terminated normally (no unhandled exception). -/
def validationReturns (r : Except PyError (List String)) : Bool :=
  match r with
  | .ok _ => true
  | .error _ => false

end CodeRabbit

namespace CodeRabbit

/-- C1: for every parsed document whose root mapping has no `reviews`
key, the validator returns exactly one error, `Missing 'reviews' section`,
and performs no other checks: the result is that single-message list. -/
theorem C1_missing_reviews_single_error (m : List (String × Yaml))
    (h : lookupKey m "reviews" = none) :
    validateConfig (Yaml.map m) = .ok ["Missing 'reviews' section"] := by
  simp [validateConfig, pyContains, h]

theorem C1_witness :
    lookupKey [] "reviews" = none ∧
      validateConfig (Yaml.map []) = .ok ["Missing 'reviews' section"] :=
  ⟨rfl, C1_missing_reviews_single_error [] rfl⟩

/-- C2 counterexample: the claim says every document whose `reviews`
value is not a mapping crashes, citing `reviews: "oops"`. It does not:
Python's `'labeling_instructions' in "oops"` is a substring test, which
is false, so validation returns normally with an empty error list. -/
theorem C2_counterexample :
    validateConfig (Yaml.map [("reviews", Yaml.str "oops")]) = .ok [] := rfl

/-- C2 amended: validation crashes with an unhandled `TypeError` exactly
when one of its two key probes raises — the root document (probed for
`reviews`), or else the `reviews` value (probed for
`labeling_instructions`), is either not iterable (None, a number, a
boolean), or is a string or list on which the membership test succeeds
(the key occurs as a substring or as an element) so the ensuing
subscript raises. A non-mapping value on which the membership test
fails, such as the string "oops", returns normally instead. -/
theorem C2_crash_characterization (config : Yaml) :
    validationReturns (validateConfig config) = false ↔
      (probeCrashes "reviews" config = true ∨
        ∃ m r, config = Yaml.map m ∧ lookupKey m "reviews" = some r ∧
          probeCrashes "labeling_instructions" r = true) := by
  cases config with
  | str s =>
    cases h : containsSub "reviews".data s.data <;>
      simp [validateConfig, pyContains, pySubscript, validationReturns,
        probeCrashes, noMembership, subscriptCrashes, h]
  | seq l =>
    cases h : l.any (eqStrKey "reviews") <;>
      simp [validateConfig, pyContains, pySubscript, validationReturns,
        probeCrashes, noMembership, subscriptCrashes, h]
  | int n =>
    simp [validateConfig, pyContains, validationReturns, probeCrashes,
      noMembership, subscriptCrashes]
  | bool b =>
    simp [validateConfig, pyContains, validationReturns, probeCrashes,
      noMembership, subscriptCrashes]
  | null =>
    simp [validateConfig, pyContains, validationReturns, probeCrashes,
      noMembership, subscriptCrashes]
  | map m =>
    cases h : lookupKey m "reviews" with
    | none =>
      simp [validateConfig, pyContains, pySubscript, validationReturns,
        probeCrashes, noMembership, subscriptCrashes, h]
    | some r =>
      cases r with
      | str s2 =>
        cases h2 : containsSub "labeling_instructions".data s2.data <;>
          simp [validateConfig, pyContains, pySubscript, validationReturns,
            probeCrashes, noMembership, subscriptCrashes, h, h2]
      | seq l2 =>
        cases h2 : l2.any (eqStrKey "labeling_instructions") <;>
          simp [validateConfig, pyContains, pySubscript, validationReturns,
            probeCrashes, noMembership, subscriptCrashes, h, h2]
      | map m2 =>
        cases h2 : lookupKey m2 "labeling_instructions" with
        | none =>
          simp [validateConfig, pyContains, pySubscript, validationReturns,
            probeCrashes, noMembership, subscriptCrashes, h, h2]
        | some li =>
          cases li <;>
            simp [validateConfig, pyContains, pySubscript, validationReturns,
              probeCrashes, noMembership, subscriptCrashes, h, h2]
      | int n2 =>
        simp [validateConfig, pyContains, pySubscript, validationReturns,
          probeCrashes, noMembership, subscriptCrashes, h]
      | bool b2 =>
        simp [validateConfig, pyContains, pySubscript, validationReturns,
          probeCrashes, noMembership, subscriptCrashes, h]
      | null =>
        simp [validateConfig, pyContains, pySubscript, validationReturns,
          probeCrashes, noMembership, subscriptCrashes, h]

theorem C2_witness :
    validationReturns (validateConfig (Yaml.str "reviews")) = false ∧
      validationReturns (validateConfig
        (Yaml.map [("reviews", Yaml.str "labeling_instructions")])) = false ∧
      validationReturns (validateConfig Yaml.null) = false :=
  ⟨(C2_crash_characterization (Yaml.str "reviews")).mpr (Or.inl rfl),
   (C2_crash_characterization
       (Yaml.map [("reviews", Yaml.str "labeling_instructions")])).mpr
     (Or.inr ⟨[("reviews", Yaml.str "labeling_instructions")],
       Yaml.str "labeling_instructions", rfl, rfl, rfl⟩),
   (C2_crash_characterization Yaml.null).mpr (Or.inl rfl)⟩

/-- C3: when the root mapping has a mapping `reviews` section whose
`labeling_instructions` value is present but not a list, the validator
returns exactly the one must-be-a-list error and no per-element
messages. -/
theorem C3_nonlist_single_error (cm rm : List (String × Yaml)) (li : Yaml)
    (h1 : lookupKey cm "reviews" = some (Yaml.map rm))
    (h2 : lookupKey rm "labeling_instructions" = some li)
    (h3 : isSeq li = false) :
    validateConfig (Yaml.map cm) =
      .ok ["'reviews.labeling_instructions' must be a list"] := by
  cases li <;> simp_all [validateConfig, pyContains, pySubscript, isSeq]

theorem C3_witness :
    lookupKey [("reviews", Yaml.map [("labeling_instructions", Yaml.str "x")])] "reviews"
        = some (Yaml.map [("labeling_instructions", Yaml.str "x")]) ∧
      lookupKey [("labeling_instructions", Yaml.str "x")] "labeling_instructions"
        = some (Yaml.str "x") ∧
      isSeq (Yaml.str "x") = false ∧
      validateConfig (Yaml.map [("reviews", Yaml.map [("labeling_instructions", Yaml.str "x")])])
        = .ok ["'reviews.labeling_instructions' must be a list"] :=
  ⟨rfl, rfl, rfl, C3_nonlist_single_error _ _ _ rfl rfl rfl⟩

end CodeRabbit

namespace CodeRabbit

/-- C4: a plain-string element at index `i` yields exactly one error for
that element, the specific received-string message at the indexed path,
and no field-level errors. -/
theorem C4_string_element_single_error (i : Nat) (s : String) :
    validateElement i (Yaml.str s) =
        ["Expected object, received string at " ++ elemPath i] ∧
      elemPath i = "\"reviews.labeling_instructions[" ++ toString i ++ "]\"" :=
  ⟨rfl, rfl⟩

/-- C5: a mapping element lacking both `label` and `instructions` yields
exactly two errors, the two missing-field messages at the element's path,
in label-then-instructions order; the two field checks run
independently, as the appended `labelFieldErrors`/`instructionsFieldErrors`
blocks in `validateElement` show. -/
theorem C5_missing_both_fields_two_errors (i : Nat) (em : List (String × Yaml))
    (h1 : lookupKey em "label" = none) (h2 : lookupKey em "instructions" = none) :
    validateElement i (Yaml.map em) =
      ["Missing 'label' field at " ++ elemPath i,
       "Missing 'instructions' field at " ++ elemPath i] := by
  simp [validateElement, labelFieldErrors, instructionsFieldErrors, h1, h2]

theorem C5_witness :
    lookupKey [] "label" = none ∧ lookupKey [] "instructions" = none ∧
      validateElement 0 (Yaml.map []) =
        ["Missing 'label' field at " ++ elemPath 0,
         "Missing 'instructions' field at " ++ elemPath 0] :=
  ⟨rfl, rfl, C5_missing_both_fields_two_errors 0 [] rfl rfl⟩

/-- The length of the string built from `n` copies of a character. -/
theorem length_mk_replicate (n : Nat) (c : Char) :
    (String.mk (List.replicate n c)).length = n := by
  simp [String.length]

/-- C6: an `instructions` string of length 3001 yields exactly the one
character-limit error for that field, a string of length exactly 3000
yields none, and the three `instructions` checks (missing, wrong type,
too long) are mutually exclusive: every field outcome yields at most one
message. -/
theorem C6_instructions_length_limit (i : Nat) (s t : String)
    (h1 : s.length = 3001) (h2 : t.length = 3000) :
    instructionsFieldErrors i (some (Yaml.str s)) =
        ["'instructions' exceeds 3000 character limit at " ++ elemPath i] ∧
      instructionsFieldErrors i (some (Yaml.str t)) = [] ∧
      ∀ o : Option Yaml, (instructionsFieldErrors i o).length ≤ 1 := by
  refine ⟨by simp [instructionsFieldErrors, h1], by simp [instructionsFieldErrors, h2], ?_⟩
  intro o
  rcases o with _ | v
  · simp [instructionsFieldErrors]
  · cases v <;> simp [instructionsFieldErrors]
    split <;> simp

theorem C6_witness :
    (String.mk (List.replicate 3001 'a')).length = 3001 ∧
      (String.mk (List.replicate 3000 'a')).length = 3000 ∧
      instructionsFieldErrors 0 (some (Yaml.str (String.mk (List.replicate 3001 'a')))) =
        ["'instructions' exceeds 3000 character limit at " ++ elemPath 0] ∧
      instructionsFieldErrors 0 (some (Yaml.str (String.mk (List.replicate 3000 'a')))) = [] :=
  ⟨length_mk_replicate 3001 'a', length_mk_replicate 3000 'a',
    (C6_instructions_length_limit 0 _ (String.mk (List.replicate 3000 'a'))
      (length_mk_replicate 3001 'a') (length_mk_replicate 3000 'a')).1,
    (C6_instructions_length_limit 0 (String.mk (List.replicate 3001 'a')) _
      (length_mk_replicate 3001 'a') (length_mk_replicate 3000 'a')).2.1⟩

/-- C7: for every document whose root is a mapping with a mapping
`reviews` value, validation never raises: it terminates normally with a
(possibly empty) list of message strings, whatever the contents of
`labeling_instructions` and its elements. -/
theorem C7_mapping_reviews_never_raises (cm rm : List (String × Yaml))
    (h : lookupKey cm "reviews" = some (Yaml.map rm)) :
    validationReturns (validateConfig (Yaml.map cm)) = true := by
  cases h2 : lookupKey rm "labeling_instructions" with
  | none => simp [validateConfig, pyContains, pySubscript, validationReturns, h, h2]
  | some li =>
    cases li <;> simp [validateConfig, pyContains, pySubscript, validationReturns, h, h2]

theorem C7_witness :
    lookupKey [("reviews", Yaml.map [])] "reviews" = some (Yaml.map []) ∧
      validationReturns (validateConfig (Yaml.map [("reviews", Yaml.map [])])) = true :=
  ⟨rfl, C7_mapping_reviews_never_raises [("reviews", Yaml.map [])] [] rfl⟩

end CodeRabbit

namespace CodeRabbit

/-- C8 counterexample: a loader failure (file not found) is not presented
as a single fatal message bypassing the schema validator — it is returned
inside the validator's error list and printed by the same reporting path
as schema violations, under the `Validation failed` header as an ordinary
bulleted error line. -/
theorem C8_counterexample :
    mainRun id (fun _ => LoadResult.fileNotFound) ["prog", "/x"] =
        .ok (presentResult "/x" ["File not found: /x"]) ∧
      (presentResult "/x" ["File not found: /x"]).output =
        ["Validating CodeRabbit configuration: /x",
         "\n❌ Validation failed with the following errors:",
         "  - File not found: /x"] :=
  ⟨rfl, rfl⟩

/-- C8 amended: loader failures (file missing, or unparseable YAML) are
returned by `validate_coderabbit_yaml` as a single-element error list
whose message text (`File not found: ...` / `YAML syntax error: ...`)
distinguishes them; they flow through the same presentation as schema
violations, and the process exits 1 in either case. -/
theorem C8_loader_failures_single_error_exit1 (p e : String) :
    validate_coderabbit_yaml (fun _ => LoadResult.fileNotFound) p =
        .ok ["File not found: " ++ p] ∧
      validate_coderabbit_yaml (fun _ => LoadResult.yamlError e) p =
        .ok ["YAML syntax error: " ++ e] ∧
      (presentResult p ["File not found: " ++ p]).exitCode = 1 ∧
      (presentResult p ["YAML syntax error: " ++ e]).exitCode = 1 :=
  ⟨rfl, rfl, rfl, rfl⟩

/-- C9: with the positional argument omitted the path defaults to
`.coderabbit.yaml`; the run exits 0 exactly when the returned error list
is empty (printing the success line), and exits 1 on a non-empty list,
printing the header followed by one bulleted line per error in order. -/
theorem C9_default_path_and_exit_codes (prog : String) (a : String → String)
    (load : String → LoadResult) (errs : List String)
    (h : validate_coderabbit_yaml load (a ".coderabbit.yaml") = .ok errs) :
    chosenPath [prog] = ".coderabbit.yaml" ∧
      mainRun a load [prog] = .ok (presentResult (a ".coderabbit.yaml") errs) ∧
      ((presentResult (a ".coderabbit.yaml") errs).exitCode = 0 ↔ errs = []) ∧
      (errs = [] → (presentResult (a ".coderabbit.yaml") errs).output =
        ["Validating CodeRabbit configuration: " ++ a ".coderabbit.yaml",
         "✅ CodeRabbit YAML configuration is valid"]) ∧
      (errs ≠ [] → (presentResult (a ".coderabbit.yaml") errs).exitCode = 1 ∧
        (presentResult (a ".coderabbit.yaml") errs).output =
          ("Validating CodeRabbit configuration: " ++ a ".coderabbit.yaml") ::
            "\n❌ Validation failed with the following errors:" ::
            errs.map (fun er => "  - " ++ er)) := by
  refine ⟨rfl, ?_, ?_, ?_, ?_⟩
  · simp [mainRun, chosenPath, h]
  · cases errs <;> simp [presentResult]
  · intro he
    subst he
    simp [presentResult]
  · intro hne
    cases errs with
    | nil => exact absurd rfl hne
    | cons x xs => simp [presentResult]

theorem C9_witness :
    chosenPath ["validate-coderabbit.py"] = ".coderabbit.yaml" ∧
      mainRun id (fun _ => LoadResult.parsed (Yaml.map [("reviews", Yaml.map [])]))
          ["validate-coderabbit.py"] =
        .ok (presentResult (id ".coderabbit.yaml") []) :=
  ⟨(C9_default_path_and_exit_codes "validate-coderabbit.py" id
      (fun _ => LoadResult.parsed (Yaml.map [("reviews", Yaml.map [])])) [] rfl).1,
   (C9_default_path_and_exit_codes "validate-coderabbit.py" id
      (fun _ => LoadResult.parsed (Yaml.map [("reviews", Yaml.map [])])) [] rfl).2.1⟩

/-- C10: each list element contributes at most two messages (exactly one
when it is not a mapping); the loop over a list splits around any element
as the errors of the elements before it, then its own block at its index,
then the errors of the elements after it — so all per-element errors
appear in ascending element-index order; and an empty
`labeling_instructions` list yields zero errors. -/
theorem C10_element_bounds_and_order (i n : Nat) (x y : Yaml)
    (l1 l2 : List Yaml) (h : isMap x = false) :
    (validateElement i y).length ≤ 2 ∧
      (validateElement i x).length = 1 ∧
      validateListAux n (l1 ++ y :: l2) =
        validateListAux n l1 ++ validateElement (n + l1.length) y ++
          validateListAux (n + l1.length + 1) l2 ∧
      validateConfig (Yaml.map [("reviews",
          Yaml.map [("labeling_instructions", Yaml.seq [])])]) = .ok [] := by
  refine ⟨?_, ?_, ?_, rfl⟩
  · cases y <;> simp [validateElement]
    rename_i m
    have hl : (labelFieldErrors i (lookupKey m "label")).length ≤ 1 := by
      rcases lookupKey m "label" with _ | v
      · simp [labelFieldErrors]
      · cases v <;> simp [labelFieldErrors]
    have hi : (instructionsFieldErrors i (lookupKey m "instructions")).length ≤ 1 := by
      rcases lookupKey m "instructions" with _ | v
      · simp [instructionsFieldErrors]
      · cases v <;> simp [instructionsFieldErrors]
        split <;> simp
    omega
  · cases x <;> simp_all [validateElement, isMap]
  · induction l1 generalizing n with
    | nil => simp [validateListAux]
    | cons z zs ih =>
      have ha1 : n + 1 + zs.length = n + (zs.length + 1) := by omega
      have ha2 : n + 1 + zs.length + 1 = n + (zs.length + 1) + 1 := by omega
      simp [validateListAux, ih, List.append_assoc, ha1, ha2]

theorem C10_witness :
    (validateElement 0 (Yaml.str "bug")).length = 1 ∧
      validateListAux 0 [Yaml.null] =
        validateListAux 0 [] ++ validateElement 0 Yaml.null ++ validateListAux 1 [] :=
  ⟨(C10_element_bounds_and_order 0 0 (Yaml.str "bug") Yaml.null [] [] rfl).2.1,
   (C10_element_bounds_and_order 0 0 (Yaml.str "bug") Yaml.null [] [] rfl).2.2.1⟩

end CodeRabbit
